import Mathlib

/-!
Shallow embedding of the multi-site device-fleet orchestration layer of the
HotspotPortal repository: the MultiSiteManager and MikrotikManager modules
(backend/services/multiSiteManager.js and backend/services/mikrotikManager.js).

Database state is modelled as lists of rows; the network is an oracle mapping
an HTTP request to either an error message (connection failure, timeout, or a
remote error, i.e. a rejected axios promise) or a status code plus a JSON
array of objects. Async methods that may throw are modelled as functions
returning an Except value together with the updated database and the list of
HTTP requests actually issued.
-/

namespace HotspotPortal

/-- A row of the sites table, as written by registerSite. -/
structure SiteRow where
  id : Nat
  site_name : String
  location : String
  site_type : String
  router_ip : String
  router_port : Option Nat
  router_user : String
  router_pass : String
  api_key : String
  bandwidth : Nat
  max_users : Nat
  parent_site_id : Option Nat
  status : String
  last_heartbeat : Option Nat
deriving Repr, DecidableEq

/-- A row of the remote_users mirror table. -/
structure RemoteUserRow where
  site_id : Nat
  username : String
  password : String
  bandwidth_limit : Nat
  extra : List (String × String)
deriving Repr, DecidableEq

/-- A row of the site_management_tokens table. -/
structure TokenRow where
  site_id : Nat
  token : String
  permissions : List String
  expires_at : Nat
  created_at : Nat
deriving Repr, DecidableEq

/-- A row of the site_api_logs audit table. -/
structure LogRow where
  site_id : Nat
  endpoint : String
  method : String
  status_code : Nat
deriving Repr, DecidableEq

/-- The database state used by MultiSiteManager. -/
structure DB where
  sites : List SiteRow
  remote_users : List RemoteUserRow
  tokens : List TokenRow
  api_logs : List LogRow
deriving Repr, DecidableEq

/-- A JSON object returned by the Mikrotik REST API: the vendor .id field,
the name, and the wireless fields read by the AP enumeration calls. -/
structure RObj where
  oid : String
  name : String
  ssid : String
  frequency : String
  band : String
  mode : String
  running : Bool
  disabled : Bool
deriving Repr, DecidableEq

/-- RObj with only id and name set. -/
def RObj.mk0 (oid name : String) : RObj :=
  ⟨oid, name, "", "", "", "", false, false⟩

/-- An HTTP request as issued by axios from callSiteAPI or
testSiteConnection. -/
structure HttpReq where
  ip : String
  port : Nat
  user : String
  pass : String
  path : String
  method : String
  body : List (String × String)
deriving Repr, DecidableEq

/-- The network oracle: an HTTP request either fails with an error message
(connection refused, timeout, HTTP error status) or yields a status code and
a JSON array. -/
abbrev Net := HttpReq → Except String (Nat × List RObj)

instance {ε α : Type} [DecidableEq ε] [DecidableEq α] : DecidableEq (Except ε α)
  | Except.error x, Except.error y =>
      if h : x = y then Decidable.isTrue (by rw [h])
      else Decidable.isFalse (by simp [h])
  | Except.error _, Except.ok _ => Decidable.isFalse (by simp)
  | Except.ok _, Except.error _ => Decidable.isFalse (by simp)
  | Except.ok x, Except.ok y =>
      if h : x = y then Decidable.isTrue (by rw [h])
      else Decidable.isFalse (by simp [h])

/-- Lookup of an options value as a number, with the JavaScript
(options.key or 0) default. -/
def optNat (options : List (String × String)) (k : String) : Nat :=
  ((options.lookup k).bind String.toNat?).getD 0

namespace MultiSiteManager

/-- SELECT from sites WHERE id = siteId, first row. -/
def findSite (db : DB) (siteId : Nat) : Option SiteRow :=
  db.sites.find? (fun s => s.id == siteId)

/-- INSERT INTO site_api_logs. -/
def logSiteAPICall (db : DB) (siteId : Nat) (endpoint method : String)
    (statusCode : Nat) : DB :=
  { db with api_logs := db.api_logs ++ [⟨siteId, endpoint, method, statusCode⟩] }

/-- callSiteAPI: resolve the site row, refuse non-remote sites, then issue
one HTTP request to the site endpoint and log the call. Returns the response
data, the updated database, and the requests issued. -/
def callSiteAPI (db : DB) (net : Net) (siteId : Nat) (endpoint method : String)
    (body : List (String × String)) :
    Except String (List RObj) × DB × List HttpReq :=
  match findSite db siteId with
  | none => (Except.error "Site not found", db, [])
  | some site =>
    if site.site_type != "remote" then
      (Except.error "Can only call API on remote sites", db, [])
    else
      let req : HttpReq :=
        { ip := site.router_ip, port := site.router_port.getD 8728,
          user := site.router_user, pass := site.router_pass,
          path := "/rest" ++ endpoint, method := method,
          body := if method == "POST" || method == "PUT" then body else [] }
      match net req with
      | Except.error e => (Except.error e, db, [req])
      | Except.ok (status, data) =>
          (Except.ok data, logSiteAPICall db siteId endpoint method status, [req])

/-- createRemoteUser: POST the payload via callSiteAPI, then record the
mirror row in remote_users; on any error the mirror is untouched. -/
def createRemoteUser (db : DB) (net : Net) (siteId : Nat)
    (username password : String) (options : List (String × String)) :
    Except String (List RObj) × DB × List HttpReq :=
  let payload :=
    [("name", username), ("password", password),
     ("limit-bytes-out", toString (optNat options "bandwidthLimit")),
     ("limit-uptime", toString (optNat options "sessionTimeout"))] ++ options
  match callSiteAPI db net siteId "/ip/hotspot/user" "POST" payload with
  | (Except.error e, db1, reqs) => (Except.error e, db1, reqs)
  | (Except.ok result, db1, reqs) =>
      let row : RemoteUserRow :=
        { site_id := siteId, username := username, password := password,
          bandwidth_limit := optNat options "bandwidthLimit", extra := [] }
      (Except.ok result,
       { db1 with remote_users := db1.remote_users ++ [row] }, reqs)

/-- One key-value update applied to a mirror row, for the UPDATE statement
built by updateRemoteUser. -/
def applyUserUpdate (r : RemoteUserRow) (kv : String × String) : RemoteUserRow :=
  if kv.1 == "password" then { r with password := kv.2 }
  else if kv.1 == "bandwidth_limit" then
    { r with bandwidth_limit := (kv.2.toNat?).getD 0 }
  else { r with extra := r.extra ++ [kv] }

/-- updateRemoteUser: list users, find the vendor id by name, PUT the
updates, then update the mirror row. -/
def updateRemoteUser (db : DB) (net : Net) (siteId : Nat) (username : String)
    (updates : List (String × String)) :
    Except String (List RObj) × DB × List HttpReq :=
  match callSiteAPI db net siteId "/ip/hotspot/user" "GET" [] with
  | (Except.error e, db1, reqs) => (Except.error e, db1, reqs)
  | (Except.ok users, db1, reqs) =>
    match users.find? (fun u => u.name == username) with
    | none =>
        (Except.error ("User not found on remote site: " ++ username), db1, reqs)
    | some user =>
      match callSiteAPI db1 net siteId ("/ip/hotspot/user/" ++ user.oid)
          "PUT" updates with
      | (Except.error e, db2, reqs2) => (Except.error e, db2, reqs ++ reqs2)
      | (Except.ok result, db2, reqs2) =>
          let db3 :=
            { db2 with remote_users := db2.remote_users.map (fun r =>
                if r.site_id == siteId && r.username == username then
                  updates.foldl applyUserUpdate r
                else r) }
          (Except.ok result, db3, reqs ++ reqs2)

/-- deleteRemoteUser: list users, find the vendor id by name, DELETE it,
then remove the mirror row. An absent username is an error, not a success. -/
def deleteRemoteUser (db : DB) (net : Net) (siteId : Nat) (username : String) :
    Except String Unit × DB × List HttpReq :=
  match callSiteAPI db net siteId "/ip/hotspot/user" "GET" [] with
  | (Except.error e, db1, reqs) => (Except.error e, db1, reqs)
  | (Except.ok users, db1, reqs) =>
    match users.find? (fun u => u.name == username) with
    | none =>
        (Except.error ("User not found on remote site: " ++ username), db1, reqs)
    | some user =>
      match callSiteAPI db1 net siteId ("/ip/hotspot/user/" ++ user.oid)
          "DELETE" [] with
      | (Except.error e, db2, reqs2) => (Except.error e, db2, reqs ++ reqs2)
      | (Except.ok _, db2, reqs2) =>
          (Except.ok (),
           { db2 with remote_users := db2.remote_users.filter (fun r =>
               !(r.site_id == siteId && r.username == username)) },
           reqs ++ reqs2)

/-- createRemoteQueue: POST the queue payload for the user. -/
def createRemoteQueue (db : DB) (net : Net) (siteId : Nat) (username : String)
    (bandwidth : Nat) : Except String (List RObj) × DB × List HttpReq :=
  let payload :=
    [("name", "queue-" ++ username), ("target", username ++ "/32"),
     ("max-limit", toString bandwidth ++ "M/" ++ toString bandwidth ++ "M"),
     ("limit-at", toString (bandwidth / 2) ++ "M/" ++ toString (bandwidth / 2) ++ "M")]
  callSiteAPI db net siteId "/queue/simple" "POST" payload

/-- updateRemoteQueueBandwidth: list queues, find queue-username, PUT the
new limits. No mirror table is touched. -/
def updateRemoteQueueBandwidth (db : DB) (net : Net) (siteId : Nat)
    (username : String) (bandwidth : Nat) :
    Except String (List RObj) × DB × List HttpReq :=
  match callSiteAPI db net siteId "/queue/simple" "GET" [] with
  | (Except.error e, db1, reqs) => (Except.error e, db1, reqs)
  | (Except.ok queues, db1, reqs) =>
    match queues.find? (fun q => q.name == "queue-" ++ username) with
    | none => (Except.error ("Queue not found for user: " ++ username), db1, reqs)
    | some queue =>
      let updates :=
        [("max-limit", toString bandwidth ++ "M/" ++ toString bandwidth ++ "M"),
         ("limit-at", toString (bandwidth / 2) ++ "M/" ++ toString (bandwidth / 2) ++ "M")]
      match callSiteAPI db1 net siteId ("/queue/simple/" ++ queue.oid)
          "PUT" updates with
      | (Except.error e, db2, reqs2) => (Except.error e, db2, reqs ++ reqs2)
      | (Except.ok result, db2, reqs2) => (Except.ok result, db2, reqs ++ reqs2)

/-- One entry of a fan-out result list: {siteId, success} plus the error
message pushed on failure. -/
structure FanEntry where
  siteId : Nat
  success : Bool
  error : Option String
deriving Repr, DecidableEq

/-- The entry pushed by the fan-out loop for one site, from the outcome of
the per-site call. -/
def fanEntryOf (siteId : Nat) (r : Except String (List RObj)) : FanEntry :=
  match r with
  | Except.ok _ => ⟨siteId, true, none⟩
  | Except.error e => ⟨siteId, false, some e⟩

/-- The loop body of createUserAcrossMultipleSites: try createRemoteUser on
each site in turn, catching the per-site error into a failure entry. -/
def createUserFanout (net : Net) (username password : String)
    (options : List (String × String)) :
    DB → List Nat → List FanEntry × DB × List HttpReq
  | db, [] => ([], db, [])
  | db, siteId :: rest =>
    match createRemoteUser db net siteId username password options with
    | (r, db1, reqs1) =>
        let (es, db2, reqs2) := createUserFanout net username password options db1 rest
        (fanEntryOf siteId r :: es, db2, reqs1 ++ reqs2)

/-- createUserAcrossMultipleSites: the fan-out of createRemoteUser over the
requested site id list. -/
def createUserAcrossMultipleSites (db : DB) (net : Net)
    (username password : String) (siteIds : List Nat)
    (options : List (String × String)) : List FanEntry × DB × List HttpReq :=
  createUserFanout net username password options db siteIds

/-- The loop body of updateBandwidthAcrossMultipleSites. -/
def updateBandwidthFanout (net : Net) (username : String) (bandwidth : Nat) :
    DB → List Nat → List FanEntry × DB × List HttpReq
  | db, [] => ([], db, [])
  | db, siteId :: rest =>
    match updateRemoteQueueBandwidth db net siteId username bandwidth with
    | (r, db1, reqs1) =>
        let (es, db2, reqs2) := updateBandwidthFanout net username bandwidth db1 rest
        (fanEntryOf siteId r :: es, db2, reqs1 ++ reqs2)

/-- updateBandwidthAcrossMultipleSites: the fan-out of
updateRemoteQueueBandwidth over the requested site id list. -/
def updateBandwidthAcrossMultipleSites (db : DB) (net : Net)
    (username : String) (bandwidth : Nat) (siteIds : List Nat) :
    List FanEntry × DB × List HttpReq :=
  updateBandwidthFanout net username bandwidth db siteIds

/-- syncUserAcrossAllSites: SELECT id FROM sites WHERE status = active, then
run the create-user fan-out over those ids. -/
def syncUserAcrossAllSites (db : DB) (net : Net) (username password : String)
    (options : List (String × String)) : List FanEntry × DB × List HttpReq :=
  let siteIds := (db.sites.filter (fun s => s.status == "active")).map (fun s => s.id)
  createUserAcrossMultipleSites db net username password siteIds options

/-- The request body of registerSite. -/
structure SiteData where
  siteName : String
  location : String
  siteType : String
  routerIP : String
  routerPort : Option Nat
  routerUser : String
  routerPass : String
  apiKey : Option String
  bandwidth : Nat
  maxUsers : Nat
  parentSiteId : Option Nat
deriving Repr, DecidableEq

/-- registerSite: INSERT a new sites row with status active and return it.
The fresh id and the generated API key (crypto.randomBytes) are parameters
of the model. No duplicate check of any kind is performed. -/
def registerSite (db : DB) (newId : Nat) (generatedApiKey : String)
    (d : SiteData) : SiteRow × DB :=
  let row : SiteRow :=
    { id := newId, site_name := d.siteName, location := d.location,
      site_type := d.siteType, router_ip := d.routerIP,
      router_port := d.routerPort, router_user := d.routerUser,
      router_pass := d.routerPass, api_key := d.apiKey.getD generatedApiKey,
      bandwidth := d.bandwidth, max_users := d.maxUsers,
      parent_site_id := d.parentSiteId, status := "active",
      last_heartbeat := none }
  (row, { db with sites := db.sites ++ [row] })

/-- generateManagementToken: INSERT a token row bound to the site with a 30
day expiry. The random secret is a parameter of the model; now is the
current time in milliseconds. -/
def generateManagementToken (db : DB) (now : Nat) (secret : String)
    (siteId : Nat) (permissions : List String) : TokenRow × DB :=
  let expiresAt := now + 30 * 24 * 60 * 60 * 1000
  let row : TokenRow :=
    { site_id := siteId, token := secret, permissions := permissions,
      expires_at := expiresAt, created_at := now }
  (row, { db with tokens := db.tokens ++ [row] })

/-- verifyManagementToken: SELECT rows WHERE site_id, token match and
expires_at is strictly after NOW(); true iff at least one row matches. -/
def verifyManagementToken (db : DB) (now : Nat) (siteId : Nat)
    (token : String) : Bool :=
  !(db.tokens.filter (fun r =>
      r.site_id == siteId && r.token == token && now < r.expires_at)).isEmpty

/-- The object returned by testSiteConnection, reduced to the fields read by
the heartbeat. -/
structure ConnStatus where
  connected : Bool
  errorMsg : Option String
deriving Repr, DecidableEq

/-- testSiteConnection: look the site up; remote sites get one GET of
/rest/system/identity against their endpoint, local sites pass trivially;
any error is absorbed into connected false. -/
def testSiteConnection (db : DB) (net : Net) (siteId : Nat) : ConnStatus :=
  match findSite db siteId with
  | none => ⟨false, some "Site not found"⟩
  | some site =>
    if site.site_type == "remote" then
      let req : HttpReq :=
        { ip := site.router_ip, port := site.router_port.getD 8728,
          user := site.router_user, pass := site.router_pass,
          path := "/rest/system/identity", method := "GET", body := [] }
      match net req with
      | Except.ok _ => ⟨true, none⟩
      | Except.error e => ⟨false, some e⟩
    else ⟨true, none⟩

/-- The site:heartbeat event payload emitted by the heartbeat interval. -/
structure HeartbeatEvent where
  siteId : Nat
  connected : Bool
deriving Repr, DecidableEq

/-- One tick of the startSiteHeartbeat interval: probe the site, write
last_heartbeat and the online/offline status, and emit one site:heartbeat
event. The emit is unconditional in the source. -/
def heartbeatTick (db : DB) (net : Net) (siteId : Nat) (now : Nat) :
    DB × List HeartbeatEvent :=
  let status := testSiteConnection db net siteId
  let newStatus := if status.connected then "online" else "offline"
  let db1 :=
    { db with sites := db.sites.map (fun s =>
        if s.id == siteId then
          { s with last_heartbeat := some now, status := newStatus }
        else s) }
  (db1, [⟨siteId, status.connected⟩])

end MultiSiteManager

namespace MikrotikManager

/-- The fields of one access point produced by the getAccessPoints mapping. -/
structure ApInfo where
  id : String
  name : String
  ssid : String
  frequency : String
  band : String
  mode : String
  running : Bool
  disabled : Bool
deriving Repr, DecidableEq

/-- The in-memory cache of the MikrotikManager instance: one slot per list
resource plus a single shared lastUpdate timestamp. -/
structure MtCache where
  users : Option (List RObj)
  queues : Option (List RObj)
  aps : Option (List ApInfo)
  lastUpdate : Nat
deriving Repr, DecidableEq

/-- A request of the single-site device client (fixed host and auth). -/
structure MtReq where
  path : String
  method : String
  body : List (String × String)
deriving Repr, DecidableEq

/-- The device-client network oracle, indexed by the current time so that
the remote state may differ between calls. -/
abbrev MtNet := Nat → MtReq → Except String (List RObj)

/-- The 5 minute cache TTL in milliseconds. -/
def cacheTTL : Nat := 5 * 60 * 1000

/-- The fetch arm of getHotspotUsers: GET the user list, store it in the
cache and refresh lastUpdate; an error is absorbed into an empty list. -/
def fetchHotspotUsers (c : MtCache) (net : MtNet) (now : Nat) :
    List RObj × MtCache :=
  match net now ⟨"/ip/hotspot/user", "GET", []⟩ with
  | Except.ok data => (data, { c with users := some data, lastUpdate := now })
  | Except.error _ => ([], c)

/-- getHotspotUsers: serve the cached user list while it is set and
now - lastUpdate is under the TTL, else fetch. -/
def getHotspotUsers (c : MtCache) (net : MtNet) (now : Nat) :
    List RObj × MtCache :=
  match c.users with
  | some cached =>
      if now - c.lastUpdate < cacheTTL then (cached, c)
      else fetchHotspotUsers c net now
  | none => fetchHotspotUsers c net now

/-- The fetch arm of getQueues: GET the queue list and store it. The source
does not refresh lastUpdate here. -/
def fetchQueues (c : MtCache) (net : MtNet) (now : Nat) :
    List RObj × MtCache :=
  match net now ⟨"/queue/simple", "GET", []⟩ with
  | Except.ok data => (data, { c with queues := some data })
  | Except.error _ => ([], c)

/-- getQueues: serve the cached queue list while it is set and
now - lastUpdate is under the TTL, else fetch. -/
def getQueues (c : MtCache) (net : MtNet) (now : Nat) :
    List RObj × MtCache :=
  match c.queues with
  | some cached =>
      if now - c.lastUpdate < cacheTTL then (cached, c)
      else fetchQueues c net now
  | none => fetchQueues c net now

/-- The mapping applied to each wireless interface object. -/
def apOf (ap : RObj) : ApInfo :=
  ⟨ap.oid, ap.name, ap.ssid, ap.frequency, ap.band, ap.mode,
   ap.running, ap.disabled⟩

/-- The fetch arm of getAccessPoints: GET the wireless interfaces, map and
store them. The source does not refresh lastUpdate here. -/
def fetchAccessPoints (c : MtCache) (net : MtNet) (now : Nat) :
    List ApInfo × MtCache :=
  match net now ⟨"/interface/wireless", "GET", []⟩ with
  | Except.ok data =>
      let aps := data.map apOf
      (aps, { c with aps := some aps })
  | Except.error _ => ([], c)

/-- getAccessPoints: serve the cached AP list while it is set and
now - lastUpdate is under the TTL, else fetch. -/
def getAccessPoints (c : MtCache) (net : MtNet) (now : Nat) :
    List ApInfo × MtCache :=
  match c.aps with
  | some cached =>
      if now - c.lastUpdate < cacheTTL then (cached, c)
      else fetchAccessPoints c net now
  | none => fetchAccessPoints c net now

/-- createHotspotUser: POST the user payload; on success invalidate the
users cache slot; on failure rethrow. -/
def createHotspotUser (c : MtCache) (net : MtNet) (now : Nat)
    (username password : String) (options : List (String × String)) :
    Except String (List RObj) × MtCache :=
  let payload :=
    [("name", username), ("password", password),
     ("limit-bytes-out", toString (optNat options "bandwidthLimit")),
     ("limit-uptime", toString (optNat options "sessionTimeout")),
     ("limit-bytes-in", toString (optNat options "uploadLimit"))] ++ options
  match net now ⟨"/ip/hotspot/user", "POST", payload⟩ with
  | Except.ok data => (Except.ok data, { c with users := none })
  | Except.error e => (Except.error e, c)

/-- updateHotspotUser: resolve the user id through getHotspotUsers (cache
aware), PUT the updates, then invalidate the users cache slot. -/
def updateHotspotUser (c : MtCache) (net : MtNet) (now : Nat)
    (username : String) (updates : List (String × String)) :
    Except String (List RObj) × MtCache :=
  match getHotspotUsers c net now with
  | (users, c1) =>
    match users.find? (fun u => u.name == username) with
    | none => (Except.error ("User not found: " ++ username), c1)
    | some user =>
      match net now ⟨"/ip/hotspot/user/" ++ user.oid, "PUT", updates⟩ with
      | Except.ok data => (Except.ok data, { c1 with users := none })
      | Except.error e => (Except.error e, c1)

/-- deleteHotspotUser: resolve the user id through getHotspotUsers, DELETE
it, then invalidate the users cache slot. -/
def deleteHotspotUser (c : MtCache) (net : MtNet) (now : Nat)
    (username : String) : Except String Unit × MtCache :=
  match getHotspotUsers c net now with
  | (users, c1) =>
    match users.find? (fun u => u.name == username) with
    | none => (Except.error ("User not found: " ++ username), c1)
    | some user =>
      match net now ⟨"/ip/hotspot/user/" ++ user.oid, "DELETE", []⟩ with
      | Except.ok _ => (Except.ok (), { c1 with users := none })
      | Except.error e => (Except.error e, c1)

/-- Lookup of an options value as a string with a default. -/
def optStr (options : List (String × String)) (k d : String) : String :=
  (options.lookup k).getD d

/-- createQueue: POST the queue payload; on success invalidate the queues
cache slot. -/
def createQueue (c : MtCache) (net : MtNet) (now : Nat) (username : String)
    (options : List (String × String)) :
    Except String (List RObj) × MtCache :=
  let payload :=
    [("name", "queue-" ++ username),
     ("target", optStr options "target" (username ++ "/32")),
     ("max-limit", optStr options "maxLimit" "10M/10M"),
     ("limit-at", optStr options "limitAt" "5M/5M"),
     ("burst-limit", optStr options "burstLimit" "15M/15M"),
     ("burst-time", optStr options "burstTime" "10s"),
     ("comment", optStr options "comment" ("Queue for " ++ username))] ++ options
  match net now ⟨"/queue/simple", "POST", payload⟩ with
  | Except.ok data => (Except.ok data, { c with queues := none })
  | Except.error e => (Except.error e, c)

/-- updateQueueBandwidth: resolve the queue id through getQueues (cache
aware), PUT the new limits, then invalidate the queues cache slot. -/
def updateQueueBandwidth (c : MtCache) (net : MtNet) (now : Nat)
    (username : String) (bandwidth : List (String × String)) :
    Except String Unit × MtCache :=
  match getQueues c net now with
  | (queues, c1) =>
    match queues.find? (fun q => q.name == "queue-" ++ username) with
    | none => (Except.error ("Queue not found for user: " ++ username), c1)
    | some queue =>
      let updates :=
        [("max-limit", optStr bandwidth "maxLimit" "10M/10M"),
         ("limit-at", optStr bandwidth "limitAt" "5M/5M"),
         ("burst-limit", optStr bandwidth "burstLimit" "15M/15M")]
      match net now ⟨"/queue/simple/" ++ queue.oid, "PUT", updates⟩ with
      | Except.ok _ => (Except.ok (), { c1 with queues := none })
      | Except.error e => (Except.error e, c1)

/-- deleteQueue: resolve the queue id through getQueues, DELETE it, then
invalidate the queues cache slot. -/
def deleteQueue (c : MtCache) (net : MtNet) (now : Nat) (username : String) :
    Except String Unit × MtCache :=
  match getQueues c net now with
  | (queues, c1) =>
    match queues.find? (fun q => q.name == "queue-" ++ username) with
    | none => (Except.error ("Queue not found for user: " ++ username), c1)
    | some queue =>
      match net now ⟨"/queue/simple/" ++ queue.oid, "DELETE", []⟩ with
      | Except.ok _ => (Except.ok (), { c1 with queues := none })
      | Except.error e => (Except.error e, c1)

end MikrotikManager

/-! Concrete registry states, network oracles and caches used to evaluate
the definitions on explicit inputs. -/

/-- A site row with the given id, type, address and status; the remaining
columns take fixed test values. -/
def mkSite (id : Nat) (ty ip st : String) : SiteRow :=
  { id := id, site_name := "s", location := "l", site_type := ty,
    router_ip := ip, router_port := none, router_user := "u",
    router_pass := "p", api_key := "k", bandwidth := 10, max_users := 10,
    parent_site_id := none, status := st, last_heartbeat := none }

/-- An empty registry. -/
def emptyDB : DB := ⟨[], [], [], []⟩

/-- A network oracle on which every request fails with a timeout. -/
def netDown : Net := fun _ => Except.error "timeout"

/-- A network oracle on which every request succeeds with an empty body. -/
def netEmpty : Net := fun _ => Except.ok (200, [])

/-- A registry holding one remote site with id 1. -/
def oneRemoteDB : DB := ⟨[mkSite 1 "remote" "10.0.0.1" "active"], [], [], []⟩

/-- A registry holding one local site with id 1 whose status is online. -/
def oneLocalOnlineDB : DB := ⟨[mkSite 1 "local" "192.168.1.1" "online"], [], [], []⟩

/-- A registry with three sites: one active, one online (set by a previous
heartbeat) and one offline. -/
def threeSiteDB : DB :=
  ⟨[mkSite 1 "remote" "10.0.0.1" "active",
    mkSite 2 "remote" "10.0.0.2" "online",
    mkSite 3 "remote" "10.0.0.3" "offline"], [], [], []⟩

/-- The database state after the GET leg of a call against oneRemoteDB with
netEmpty: only the audit log row was added. -/
def oneRemoteDBLogged : DB :=
  ⟨[mkSite 1 "remote" "10.0.0.1" "active"], [], [],
   [⟨1, "/ip/hotspot/user", "GET", 200⟩]⟩

/-- The single request issued by that GET leg. -/
def oneRemoteGetReq : HttpReq :=
  ⟨"10.0.0.1", 8728, "u", "p", "/rest/ip/hotspot/user", "GET", []⟩

/-- The registration data used to probe registerSite for duplicate-endpoint
handling. -/
def dupSiteData : MultiSiteManager.SiteData :=
  ⟨"B", "loc", "remote", "10.0.0.9", some 8728, "admin", "pw", none, 10, 10, none⟩

/-- Two queue objects with the same queue name but distinct vendor ids,
reported by the controller at different times. -/
def q1 : RObj := RObj.mk0 "*1" "queue-alice"

/-- The queue object reported after time 100. -/
def q2 : RObj := RObj.mk0 "*2" "queue-alice"

/-- A device-client oracle whose queue list changes at time 100. -/
def mtNetShift : MikrotikManager.MtNet := fun t req =>
  if req.path == "/queue/simple" then
    Except.ok [if t < 100 then q1 else q2]
  else Except.ok []

/-- The empty device-client cache (constructor state). -/
def mtCache0 : MikrotikManager.MtCache := ⟨none, none, none, 0⟩

/-- Cache after getQueues at time 0: the queue entry holds q1, lastUpdate
is still 0. -/
def mtCacheQ : MikrotikManager.MtCache :=
  (MikrotikManager.getQueues mtCache0 mtNetShift 0).2

/-- Cache after a later getHotspotUsers at time 600000, which refreshes the
shared lastUpdate. -/
def mtCacheQU : MikrotikManager.MtCache :=
  (MikrotikManager.getHotspotUsers mtCacheQ mtNetShift 600000).2

namespace MultiSiteManager

theorem findSite_congr {db db' : DB} (h : db.sites = db'.sites) (sid : Nat) :
    findSite db sid = findSite db' sid := by
  unfold findSite; rw [h]

theorem callSiteAPI_sites (db : DB) (net : Net) (sid : Nat) (e m : String)
    (b : List (String × String)) :
    ((callSiteAPI db net sid e m b).2.1).sites = db.sites := by
  unfold callSiteAPI
  cases findSite db sid with
  | none => rfl
  | some site =>
    dsimp only
    split
    · rfl
    · split
      · rfl
      · rfl

theorem callSiteAPI_remote_users (db : DB) (net : Net) (sid : Nat)
    (e m : String) (b : List (String × String)) :
    ((callSiteAPI db net sid e m b).2.1).remote_users = db.remote_users := by
  unfold callSiteAPI
  cases findSite db sid with
  | none => rfl
  | some site =>
    dsimp only
    split
    · rfl
    · split
      · rfl
      · rfl

theorem callSiteAPI_congr {db db' : DB} (h : db.sites = db'.sites) (net : Net)
    (sid : Nat) (e m : String) (b : List (String × String)) :
    (callSiteAPI db net sid e m b).1 = (callSiteAPI db' net sid e m b).1 ∧
    (callSiteAPI db net sid e m b).2.2 = (callSiteAPI db' net sid e m b).2.2 := by
  unfold callSiteAPI
  rw [findSite_congr h]
  cases findSite db' sid with
  | none => exact ⟨rfl, rfl⟩
  | some site =>
    dsimp only
    split
    · exact ⟨rfl, rfl⟩
    · split
      · exact ⟨rfl, rfl⟩
      · exact ⟨rfl, rfl⟩

theorem createRemoteUser_sites (db : DB) (net : Net) (sid : Nat)
    (u p : String) (o : List (String × String)) :
    ((createRemoteUser db net sid u p o).2.1).sites = db.sites := by
  unfold createRemoteUser
  dsimp only
  split
  · next e db1 reqs heq =>
      have hs := callSiteAPI_sites db net sid "/ip/hotspot/user" "POST"
        ([("name", u), ("password", p),
          ("limit-bytes-out", toString (optNat o "bandwidthLimit")),
          ("limit-uptime", toString (optNat o "sessionTimeout"))] ++ o)
      rw [heq] at hs
      exact hs
  · next r db1 reqs heq =>
      have hs := callSiteAPI_sites db net sid "/ip/hotspot/user" "POST"
        ([("name", u), ("password", p),
          ("limit-bytes-out", toString (optNat o "bandwidthLimit")),
          ("limit-uptime", toString (optNat o "sessionTimeout"))] ++ o)
      rw [heq] at hs
      exact hs

theorem createRemoteUser_congr {db db' : DB} (h : db.sites = db'.sites)
    (net : Net) (sid : Nat) (u p : String) (o : List (String × String)) :
    (createRemoteUser db net sid u p o).1 = (createRemoteUser db' net sid u p o).1 := by
  unfold createRemoteUser
  dsimp only
  have hc := callSiteAPI_congr h net sid "/ip/hotspot/user" "POST"
    ([("name", u), ("password", p),
      ("limit-bytes-out", toString (optNat o "bandwidthLimit")),
      ("limit-uptime", toString (optNat o "sessionTimeout"))] ++ o)
  rcases h1 : callSiteAPI db net sid "/ip/hotspot/user" "POST"
      ([("name", u), ("password", p),
        ("limit-bytes-out", toString (optNat o "bandwidthLimit")),
        ("limit-uptime", toString (optNat o "sessionTimeout"))] ++ o)
    with ⟨r, db1, reqs⟩
  rcases h2 : callSiteAPI db' net sid "/ip/hotspot/user" "POST"
      ([("name", u), ("password", p),
        ("limit-bytes-out", toString (optNat o "bandwidthLimit")),
        ("limit-uptime", toString (optNat o "sessionTimeout"))] ++ o)
    with ⟨r', db1', reqs'⟩
  rw [h1, h2] at hc
  cases hc.1
  cases r with
  | error e => rfl
  | ok v => rfl

theorem updateRemoteQueueBandwidth_congr {db db' : DB} (h : db.sites = db'.sites)
    (net : Net) (sid : Nat) (u : String) (bw : Nat) :
    (updateRemoteQueueBandwidth db net sid u bw).1 =
      (updateRemoteQueueBandwidth db' net sid u bw).1 := by
  unfold updateRemoteQueueBandwidth
  have hc := callSiteAPI_congr h net sid "/queue/simple" "GET" []
  have hs1 := callSiteAPI_sites db net sid "/queue/simple" "GET" []
  have hs2 := callSiteAPI_sites db' net sid "/queue/simple" "GET" []
  rcases h1 : callSiteAPI db net sid "/queue/simple" "GET" [] with ⟨r, db1, reqs⟩
  rcases h2 : callSiteAPI db' net sid "/queue/simple" "GET" [] with ⟨r', db1', reqs'⟩
  rw [h1, h2] at hc
  rw [h1] at hs1
  rw [h2] at hs2
  cases hc.1
  cases r with
  | error e => rfl
  | ok queues =>
    dsimp only
    cases queues.find? (fun q => q.name == "queue-" ++ u) with
    | none => rfl
    | some queue =>
      dsimp only
      have hsites : db1.sites = db1'.sites := by
        dsimp only at hs1 hs2
        rw [hs1, hs2, h]
      have hc2 := callSiteAPI_congr hsites net sid ("/queue/simple/" ++ queue.oid)
        "PUT"
        [("max-limit", toString bw ++ "M/" ++ toString bw ++ "M"),
         ("limit-at", toString (bw / 2) ++ "M/" ++ toString (bw / 2) ++ "M")]
      rcases h3 : callSiteAPI db1 net sid ("/queue/simple/" ++ queue.oid) "PUT"
          [("max-limit", toString bw ++ "M/" ++ toString bw ++ "M"),
           ("limit-at", toString (bw / 2) ++ "M/" ++ toString (bw / 2) ++ "M")]
        with ⟨r2, db2, reqs2⟩
      rcases h4 : callSiteAPI db1' net sid ("/queue/simple/" ++ queue.oid) "PUT"
          [("max-limit", toString bw ++ "M/" ++ toString bw ++ "M"),
           ("limit-at", toString (bw / 2) ++ "M/" ++ toString (bw / 2) ++ "M")]
        with ⟨r2', db2', reqs2'⟩
      rw [h3, h4] at hc2
      cases hc2.1
      cases r2 with
      | error e => rfl
      | ok v => rfl

theorem updateRemoteQueueBandwidth_sites (db : DB) (net : Net) (sid : Nat)
    (u : String) (bw : Nat) :
    ((updateRemoteQueueBandwidth db net sid u bw).2.1).sites = db.sites := by
  unfold updateRemoteQueueBandwidth
  have hs1 := callSiteAPI_sites db net sid "/queue/simple" "GET" []
  rcases h1 : callSiteAPI db net sid "/queue/simple" "GET" [] with ⟨r, db1, reqs⟩
  rw [h1] at hs1
  cases r with
  | error e => exact hs1
  | ok queues =>
    dsimp only
    cases queues.find? (fun q => q.name == "queue-" ++ u) with
    | none => exact hs1
    | some queue =>
      dsimp only
      have hs2 := callSiteAPI_sites db1 net sid ("/queue/simple/" ++ queue.oid)
        "PUT"
        [("max-limit", toString bw ++ "M/" ++ toString bw ++ "M"),
         ("limit-at", toString (bw / 2) ++ "M/" ++ toString (bw / 2) ++ "M")]
      rcases h3 : callSiteAPI db1 net sid ("/queue/simple/" ++ queue.oid) "PUT"
          [("max-limit", toString bw ++ "M/" ++ toString bw ++ "M"),
           ("limit-at", toString (bw / 2) ++ "M/" ++ toString (bw / 2) ++ "M")]
        with ⟨r2, db2, reqs2⟩
      rw [h3] at hs2
      dsimp only at hs1 hs2
      cases r2 with
      | error e => exact hs2.trans hs1
      | ok v => exact hs2.trans hs1

theorem createUserFanout_spec (net : Net) (u p : String)
    (o : List (String × String)) :
    ∀ (siteIds : List Nat) (db db0 : DB), db.sites = db0.sites →
      (createUserFanout net u p o db siteIds).1 =
        siteIds.map (fun sid => fanEntryOf sid (createRemoteUser db0 net sid u p o).1) := by
  intro siteIds
  induction siteIds with
  | nil => intro db db0 h; rfl
  | cons sid rest ih =>
    intro db db0 h
    dsimp only [createUserFanout, List.map]
    have hcon := createRemoteUser_congr h net sid u p o
    have hsites := createRemoteUser_sites db net sid u p o
    rcases h1 : createRemoteUser db net sid u p o with ⟨r, db1, reqs1⟩
    rw [h1] at hcon hsites
    dsimp only at hcon hsites ⊢
    rw [hcon, ih db1 db0 (hsites.trans h)]

theorem updateBandwidthFanout_spec (net : Net) (u : String) (bw : Nat) :
    ∀ (siteIds : List Nat) (db db0 : DB), db.sites = db0.sites →
      (updateBandwidthFanout net u bw db siteIds).1 =
        siteIds.map (fun sid => fanEntryOf sid (updateRemoteQueueBandwidth db0 net sid u bw).1) := by
  intro siteIds
  induction siteIds with
  | nil => intro db db0 h; rfl
  | cons sid rest ih =>
    intro db db0 h
    dsimp only [updateBandwidthFanout, List.map]
    have hcon := updateRemoteQueueBandwidth_congr h net sid u bw
    have hsites := updateRemoteQueueBandwidth_sites db net sid u bw
    rcases h1 : updateRemoteQueueBandwidth db net sid u bw with ⟨r, db1, reqs1⟩
    rw [h1] at hcon hsites
    dsimp only at hcon hsites ⊢
    rw [hcon, ih db1 db0 (hsites.trans h)]

theorem fanEntryOf_siteId (sid : Nat) (r : Except String (List RObj)) :
    (fanEntryOf sid r).siteId = sid := by
  cases r with
  | error e => rfl
  | ok v => rfl

theorem fanout_map_siteId (db : DB) (net : Net) (u p : String)
    (o : List (String × String)) (siteIds : List Nat) :
    (createUserAcrossMultipleSites db net u p siteIds o).1.map FanEntry.siteId = siteIds := by
  rw [createUserAcrossMultipleSites, createUserFanout_spec net u p o siteIds db db rfl,
    List.map_map]
  have : (FanEntry.siteId ∘ fun sid => fanEntryOf sid (createRemoteUser db net sid u p o).1)
      = fun sid => sid := by
    funext sid
    exact fanEntryOf_siteId sid _
  rw [this, List.map_id']

theorem bwfanout_map_siteId (db : DB) (net : Net) (u : String) (bw : Nat)
    (siteIds : List Nat) :
    (updateBandwidthAcrossMultipleSites db net u bw siteIds).1.map FanEntry.siteId = siteIds := by
  rw [updateBandwidthAcrossMultipleSites, updateBandwidthFanout_spec net u bw siteIds db db rfl,
    List.map_map]
  have : (FanEntry.siteId ∘ fun sid => fanEntryOf sid (updateRemoteQueueBandwidth db net sid u bw).1)
      = fun sid => sid := by
    funext sid
    exact fanEntryOf_siteId sid _
  rw [this, List.map_id']

/-- C1: a failure of the per-site operation on one site never aborts a
fan-out. Both fan-out operations return one entry per requested site id, in
request order, and each site entry is exactly the image (fanEntryOf) of the
per-site call outcome evaluated against the initial registry state and the
network alone — a failing site contributes a failure entry carrying its
error message, and no entry depends on the outcomes of the other sites. -/
theorem C1_fanout_partial_failure_isolation (db : DB) (net : Net)
    (u p : String) (o : List (String × String)) (bw : Nat) (siteIds : List Nat) :
    (createUserAcrossMultipleSites db net u p siteIds o).1 =
      siteIds.map (fun sid => fanEntryOf sid (createRemoteUser db net sid u p o).1) ∧
    (updateBandwidthAcrossMultipleSites db net u bw siteIds).1 =
      siteIds.map (fun sid => fanEntryOf sid (updateRemoteQueueBandwidth db net sid u bw).1) :=
  ⟨createUserFanout_spec net u p o siteIds db db rfl,
   updateBandwidthFanout_spec net u bw siteIds db db rfl⟩

/-- C2 (amended): each fan-out result carries exactly one entry per element
of the requested site-id list, in order, so its length equals the request
list length; when the requested site ids are pairwise distinct the result
has no duplicate site entries and its cardinality equals the cardinality of
the requested site-id set. -/
theorem C2_fanout_result_cardinality (db : DB) (net : Net) (u p : String)
    (o : List (String × String)) (bw : Nat) (siteIds : List Nat)
    (hnd : siteIds.Nodup) :
    ((createUserAcrossMultipleSites db net u p siteIds o).1.map FanEntry.siteId = siteIds ∧
     (createUserAcrossMultipleSites db net u p siteIds o).1.length = siteIds.length ∧
     ((createUserAcrossMultipleSites db net u p siteIds o).1.map FanEntry.siteId).Nodup ∧
     (createUserAcrossMultipleSites db net u p siteIds o).1.length = siteIds.toFinset.card) ∧
    ((updateBandwidthAcrossMultipleSites db net u bw siteIds).1.map FanEntry.siteId = siteIds ∧
     (updateBandwidthAcrossMultipleSites db net u bw siteIds).1.length = siteIds.length ∧
     ((updateBandwidthAcrossMultipleSites db net u bw siteIds).1.map FanEntry.siteId).Nodup ∧
     (updateBandwidthAcrossMultipleSites db net u bw siteIds).1.length = siteIds.toFinset.card) := by
  have hm1 := fanout_map_siteId db net u p o siteIds
  have hm2 := bwfanout_map_siteId db net u bw siteIds
  have hl1 : (createUserAcrossMultipleSites db net u p siteIds o).1.length = siteIds.length := by
    have h := congrArg List.length hm1
    simpa using h
  have hl2 : (updateBandwidthAcrossMultipleSites db net u bw siteIds).1.length = siteIds.length := by
    have h := congrArg List.length hm2
    simpa using h
  have hcard : siteIds.toFinset.card = siteIds.length :=
    List.toFinset_card_of_nodup hnd
  refine ⟨⟨hm1, hl1, ?_, ?_⟩, hm2, hl2, ?_, ?_⟩
  · rw [hm1]; exact hnd
  · rw [hcard]; exact hl1
  · rw [hm2]; exact hnd
  · rw [hcard]; exact hl2

/-- C2 witness: the theorem applied to the duplicate-free request list
[1, 2] against the empty registry with an unreachable network. -/
theorem C2_fanout_result_cardinality_witness :
    (createUserAcrossMultipleSites emptyDB netDown "alice" "pw" [1, 2] []).1.length = 2 :=
  (C2_fanout_result_cardinality emptyDB netDown "alice" "pw" [] 5 [1, 2] (by decide)).1.2.1

/-- C2 counterexample: with the requested site-id list [1, 1] the code
returns two identical entries for site 1, so the result contains duplicate
entries and its cardinality differs from the cardinality of the requested
site-id set — the claim as stated fails for request lists with repeats. -/
theorem C2_counterexample :
    ((createUserAcrossMultipleSites emptyDB netDown "alice" "pw" [1, 1] []).1 =
      [⟨1, false, some "Site not found"⟩, ⟨1, false, some "Site not found"⟩]) ∧
    ¬ ((createUserAcrossMultipleSites emptyDB netDown "alice" "pw" [1, 1] []).1.length =
        ([1, 1] : List Nat).toFinset.card) ∧
    ¬ ((createUserAcrossMultipleSites emptyDB netDown "alice" "pw" [1, 1] []).1.map
        FanEntry.siteId).Nodup := by
  refine ⟨?_, ?_, ?_⟩ <;> decide

/-- C4 (amended): syncUserAcrossAllSites targets exactly the sites whose
stored status equals the registration value active; every other site —
including online and offline ones — is silently omitted: it contributes no
result entry of any kind. -/
theorem C4_sync_targets_active_sites (db : DB) (net : Net) (u p : String)
    (o : List (String × String)) :
    (syncUserAcrossAllSites db net u p o).1 =
      ((db.sites.filter (fun s => s.status == "active")).map (fun s => s.id)).map
        (fun sid => fanEntryOf sid (createRemoteUser db net sid u p o).1) :=
  createUserFanout_spec net u p o _ db db rfl

/-- C4 counterexample: a registry with three sites (statuses active, online,
offline) yields a sync result with exactly one entry — for the active site
only. The offline site gets no SiteOffline failure entry, and even the
online site is omitted, so the result does not contain one entry per
registered site. -/
theorem C4_counterexample :
    threeSiteDB.sites.length = 3 ∧
    ((syncUserAcrossAllSites threeSiteDB netEmpty "alice" "pw" []).1.map FanEntry.siteId = [1]) ∧
    (syncUserAcrossAllSites threeSiteDB netEmpty "alice" "pw" []).1.length ≠ 3 ∧
    (∀ e ∈ (syncUserAcrossAllSites threeSiteDB netEmpty "alice" "pw" []).1, e.siteId ≠ 3) := by
  refine ⟨?_, ?_, ?_, ?_⟩ <;> decide

theorem createRemoteUser_error_mirror (db : DB) (net : Net) (sid : Nat)
    (u p : String) (o : List (String × String)) (e : String) (db' : DB)
    (reqs : List HttpReq)
    (heq : createRemoteUser db net sid u p o = (Except.error e, db', reqs)) :
    db'.remote_users = db.remote_users := by
  have hru := callSiteAPI_remote_users db net sid "/ip/hotspot/user" "POST"
    ([("name", u), ("password", p),
      ("limit-bytes-out", toString (optNat o "bandwidthLimit")),
      ("limit-uptime", toString (optNat o "sessionTimeout"))] ++ o)
  unfold createRemoteUser at heq
  dsimp only at heq
  rcases h1 : callSiteAPI db net sid "/ip/hotspot/user" "POST"
      ([("name", u), ("password", p),
        ("limit-bytes-out", toString (optNat o "bandwidthLimit")),
        ("limit-uptime", toString (optNat o "sessionTimeout"))] ++ o)
    with ⟨r, db1, reqs1⟩
  rw [h1] at heq hru
  dsimp only at hru
  cases r with
  | ok v =>
      dsimp only at heq
      have hres := congrArg (fun t => t.1) heq
      simp at hres
  | error e0 =>
      dsimp only at heq
      have hdb := congrArg (fun t => t.2.1) heq
      dsimp only at hdb
      rw [← hdb]
      exact hru

theorem createRemoteUser_ok_mirror (db : DB) (net : Net) (sid : Nat)
    (u p : String) (o : List (String × String)) (v : List RObj) (db' : DB)
    (reqs : List HttpReq)
    (heq : createRemoteUser db net sid u p o = (Except.ok v, db', reqs)) :
    db'.remote_users = db.remote_users ++
      [⟨sid, u, p, optNat o "bandwidthLimit", []⟩] := by
  have hru := callSiteAPI_remote_users db net sid "/ip/hotspot/user" "POST"
    ([("name", u), ("password", p),
      ("limit-bytes-out", toString (optNat o "bandwidthLimit")),
      ("limit-uptime", toString (optNat o "sessionTimeout"))] ++ o)
  unfold createRemoteUser at heq
  dsimp only at heq
  rcases h1 : callSiteAPI db net sid "/ip/hotspot/user" "POST"
      ([("name", u), ("password", p),
        ("limit-bytes-out", toString (optNat o "bandwidthLimit")),
        ("limit-uptime", toString (optNat o "sessionTimeout"))] ++ o)
    with ⟨r, db1, reqs1⟩
  rw [h1] at heq hru
  dsimp only at hru
  cases r with
  | error e0 =>
      dsimp only at heq
      have hres := congrArg (fun t => t.1) heq
      simp at hres
  | ok v0 =>
      dsimp only at heq
      have hdb := congrArg (fun t => t.2.1) heq
      dsimp only at hdb
      rw [← hdb]
      dsimp only
      rw [hru]

theorem deleteRemoteUser_error_mirror (db : DB) (net : Net) (sid : Nat)
    (u : String) (e : String) (db' : DB) (reqs : List HttpReq)
    (heq : deleteRemoteUser db net sid u = (Except.error e, db', reqs)) :
    db'.remote_users = db.remote_users := by
  have hru1 := callSiteAPI_remote_users db net sid "/ip/hotspot/user" "GET" []
  unfold deleteRemoteUser at heq
  rcases h1 : callSiteAPI db net sid "/ip/hotspot/user" "GET" [] with ⟨r, db1, reqs1⟩
  rw [h1] at heq hru1
  dsimp only at hru1
  cases r with
  | error e0 =>
      dsimp only at heq
      have hdb := congrArg (fun t => t.2.1) heq
      dsimp only at hdb
      rw [← hdb]
      exact hru1
  | ok users =>
      dsimp only at heq
      cases hf : users.find? (fun x => x.name == u) with
      | none =>
          rw [hf] at heq
          dsimp only at heq
          have hdb := congrArg (fun t => t.2.1) heq
          dsimp only at hdb
          rw [← hdb]
          exact hru1
      | some user =>
          rw [hf] at heq
          dsimp only at heq
          have hru2 := callSiteAPI_remote_users db1 net sid
            ("/ip/hotspot/user/" ++ user.oid) "DELETE" []
          rcases h2 : callSiteAPI db1 net sid ("/ip/hotspot/user/" ++ user.oid)
              "DELETE" [] with ⟨r2, db2, reqs2⟩
          rw [h2] at heq hru2
          dsimp only at hru2
          cases r2 with
          | error e2 =>
              dsimp only at heq
              have hdb := congrArg (fun t => t.2.1) heq
              dsimp only at hdb
              rw [← hdb]
              exact hru2.trans hru1
          | ok v2 =>
              dsimp only at heq
              have hres := congrArg (fun t => t.1) heq
              simp at hres

/-- C3 (amended): for a username absent from the remote user list of a
site, deleteRemoteUser does not return success: it fails with the
User-not-found error and leaves the remote_users mirror untouched —
deletion of an absent user is not idempotent in the code. -/
theorem C3_delete_absent_user_errors (db : DB) (net : Net) (sid : Nat)
    (u : String) (users : List RObj) (db1 : DB) (reqs : List HttpReq)
    (hget : callSiteAPI db net sid "/ip/hotspot/user" "GET" [] =
      (Except.ok users, db1, reqs))
    (habs : users.find? (fun x => x.name == u) = none) :
    deleteRemoteUser db net sid u =
      (Except.error ("User not found on remote site: " ++ u), db1, reqs) ∧
    db1.remote_users = db.remote_users := by
  constructor
  · unfold deleteRemoteUser
    rw [hget]
    dsimp only
    rw [habs]
  · have h := callSiteAPI_remote_users db net sid "/ip/hotspot/user" "GET" []
    rw [hget] at h
    exact h

/-- C3 witness: deleting bob — absent from the empty remote user list of
the reachable remote site 1 — produces the User-not-found error. -/
theorem C3_delete_absent_user_errors_witness :
    deleteRemoteUser oneRemoteDB netEmpty 1 "bob" =
      (Except.error ("User not found on remote site: " ++ "bob"),
       oneRemoteDBLogged, [oneRemoteGetReq]) ∧
    oneRemoteDBLogged.remote_users = oneRemoteDB.remote_users :=
  C3_delete_absent_user_errors oneRemoteDB netEmpty 1 "bob" [] oneRemoteDBLogged
    [oneRemoteGetReq] (by decide) rfl

/-- C3 counterexample: deleting alice, absent from the remote user list,
returns the User-not-found error — not success as the claim states. -/
theorem C3_counterexample :
    (deleteRemoteUser oneRemoteDB netEmpty 1 "alice").1 =
      Except.error "User not found on remote site: alice" ∧
    (deleteRemoteUser oneRemoteDB netEmpty 1 "alice").1 ≠ Except.ok () := by
  refine ⟨?_, ?_⟩ <;> decide

/-- C5: the remote_users mirror is written only after the remote call has
succeeded: when createRemoteUser fails the mirror is unchanged; when it
succeeds the mirror gains exactly the one confirmed row; and when
deleteRemoteUser fails for any reason (site lookup, unreachable endpoint,
absent user, failed DELETE) the mirror is unchanged. -/
theorem C5_mirror_only_after_remote_success (db : DB) (net : Net) (sid : Nat)
    (u p : String) (o : List (String × String)) :
    (∀ e db' reqs, createRemoteUser db net sid u p o = (Except.error e, db', reqs) →
      db'.remote_users = db.remote_users) ∧
    (∀ v db' reqs, createRemoteUser db net sid u p o = (Except.ok v, db', reqs) →
      db'.remote_users = db.remote_users ++
        [⟨sid, u, p, optNat o "bandwidthLimit", []⟩]) ∧
    (∀ e db' reqs, deleteRemoteUser db net sid u = (Except.error e, db', reqs) →
      db'.remote_users = db.remote_users) :=
  ⟨fun e db' reqs heq => createRemoteUser_error_mirror db net sid u p o e db' reqs heq,
   fun v db' reqs heq => createRemoteUser_ok_mirror db net sid u p o v db' reqs heq,
   fun e db' reqs heq => deleteRemoteUser_error_mirror db net sid u e db' reqs heq⟩

/-- C5 witness: a confirmed remote create against the reachable remote site
appends exactly the confirmed row to the mirror. -/
theorem C5_mirror_only_after_remote_success_witness :
    ((createRemoteUser oneRemoteDB netEmpty 1 "alice" "pw" []).2.1).remote_users =
      oneRemoteDB.remote_users ++ [⟨1, "alice", "pw", optNat [] "bandwidthLimit", []⟩] :=
  (C5_mirror_only_after_remote_success oneRemoteDB netEmpty 1 "alice" "pw" []).2.1
    [] _ _ rfl

/-- C6: verifyManagementToken returns true exactly when some stored token
row has the claimed site id, the presented secret, and an expiry strictly
in the future; in every other case (token absent, bound to another site, or
expired) the total Bool-valued function evaluates to false — no exception
escapes to the caller. -/
theorem C6_verify_token_iff (db : DB) (now sid : Nat) (tok : String) :
    verifyManagementToken db now sid tok = true ↔
      ∃ r ∈ db.tokens, r.site_id = sid ∧ r.token = tok ∧ now < r.expires_at := by
  unfold verifyManagementToken
  simp [List.isEmpty_iff, List.filter_eq_nil_iff, not_forall, and_assoc]

/-- C7 counterexample: after a site with the endpoint+credentials tuple of
dupSiteData is registered and active, registering the identical tuple again
does not fail — registerSite returns a row unconditionally — and the
registry ends up with two active site rows carrying the same tuple. -/
theorem C7_counterexample :
    ((registerSite (registerSite emptyDB 1 "K1" dupSiteData).2 2 "K2" dupSiteData).2.sites.filter
        (fun s => s.router_ip == dupSiteData.routerIP &&
          s.router_port == dupSiteData.routerPort &&
          s.router_user == dupSiteData.routerUser &&
          s.router_pass == dupSiteData.routerPass &&
          s.status == "active")).length = 2 := by
  decide

/-- C7 (amended): registerSite performs no duplicate-endpoint check: for
every registry state it unconditionally appends one new active site row
built from the request data and returns it, even when an identical
endpoint+credentials tuple is already registered for an active site. -/
theorem C7_register_never_rejects_duplicates (db : DB) (newId : Nat)
    (key : String) (d : SiteData) :
    (registerSite db newId key d).2.sites =
      db.sites ++ [(registerSite db newId key d).1] ∧
    (registerSite db newId key d).1.status = "active" :=
  ⟨rfl, rfl⟩

/-- C9 (amended): every heartbeat tick emits exactly one site:heartbeat
event, regardless of whether the probe outcome changed the stored status —
the emission is per tick, not per status change. -/
theorem C9_heartbeat_emits_per_tick (db : DB) (net : Net) (sid now : Nat) :
    (heartbeatTick db net sid now).2 =
      [⟨sid, (testSiteConnection db net sid).connected⟩] ∧
    ((heartbeatTick db net sid now).2).length = 1 :=
  ⟨rfl, rfl⟩

/-- C9 counterexample: a tick on a site that is already online and whose
probe succeeds leaves the stored status unchanged, yet still emits one
event — refuting the claim that a probe tick with unchanged status never
emits an event. -/
theorem C9_counterexample :
    oneLocalOnlineDB.sites.map SiteRow.status = ["online"] ∧
    ((heartbeatTick oneLocalOnlineDB netEmpty 1 50).1.sites.map SiteRow.status
      = ["online"]) ∧
    (heartbeatTick oneLocalOnlineDB netEmpty 1 50).2 = [⟨1, true⟩] ∧
    ((heartbeatTick oneLocalOnlineDB netEmpty 1 50).2).length ≠ 0 := by
  refine ⟨?_, ?_, ?_, ?_⟩ <;> decide

theorem callSiteAPI_local (db : DB) (net : Net) (sid : Nat) (site : SiteRow)
    (hfind : findSite db sid = some site) (hlocal : site.site_type ≠ "remote")
    (endpoint method : String) (body : List (String × String)) :
    callSiteAPI db net sid endpoint method body =
      (Except.error "Can only call API on remote sites", db, []) := by
  unfold callSiteAPI
  rw [hfind]
  dsimp only
  have hb : (site.site_type != "remote") = true := by
    simp [bne_iff_ne, hlocal]
  rw [if_pos hb]

/-- C10: on a site whose stored site_type is not remote, callSiteAPI fails
with the Can-only-call-API-on-remote-sites error, leaving the database
unchanged and issuing no HTTP request; consequently every per-site
provisioning operation on it fails the same way without any network call,
and any create-user fan-out whose target list contains such a site records
a failure entry for it. -/
theorem C10_local_site_rejected_without_network (db : DB) (net : Net)
    (sid : Nat) (site : SiteRow) (hfind : findSite db sid = some site)
    (hlocal : site.site_type ≠ "remote") (endpoint method : String)
    (body : List (String × String)) (u p : String)
    (o : List (String × String)) (bw : Nat) :
    callSiteAPI db net sid endpoint method body =
      (Except.error "Can only call API on remote sites", db, []) ∧
    createRemoteUser db net sid u p o =
      (Except.error "Can only call API on remote sites", db, []) ∧
    updateRemoteUser db net sid u o =
      (Except.error "Can only call API on remote sites", db, []) ∧
    deleteRemoteUser db net sid u =
      (Except.error "Can only call API on remote sites", db, []) ∧
    createRemoteQueue db net sid u bw =
      (Except.error "Can only call API on remote sites", db, []) ∧
    updateRemoteQueueBandwidth db net sid u bw =
      (Except.error "Can only call API on remote sites", db, []) ∧
    (∀ siteIds : List Nat, sid ∈ siteIds →
      (⟨sid, false, some "Can only call API on remote sites"⟩ : FanEntry) ∈
        (createUserAcrossMultipleSites db net u p siteIds o).1) := by
  have hcall := fun endpoint method body =>
    callSiteAPI_local db net sid site hfind hlocal endpoint method body
  have hcreate : createRemoteUser db net sid u p o =
      (Except.error "Can only call API on remote sites", db, []) := by
    unfold createRemoteUser
    dsimp only
    rw [hcall "/ip/hotspot/user" "POST" _]
  refine ⟨hcall endpoint method body, hcreate, ?_, ?_, ?_, ?_, ?_⟩
  · unfold updateRemoteUser
    rw [hcall "/ip/hotspot/user" "GET" []]
  · unfold deleteRemoteUser
    rw [hcall "/ip/hotspot/user" "GET" []]
  · unfold createRemoteQueue
    dsimp only
    rw [hcall "/queue/simple" "POST" _]
  · unfold updateRemoteQueueBandwidth
    rw [hcall "/queue/simple" "GET" []]
  · intro siteIds hmem
    rw [createUserAcrossMultipleSites,
      createUserFanout_spec net u p o siteIds db db rfl]
    have hentry : fanEntryOf sid (createRemoteUser db net sid u p o).1 =
        (⟨sid, false, some "Can only call API on remote sites"⟩ : FanEntry) := by
      rw [hcreate]
      rfl
    rw [← hentry]
    exact List.mem_map_of_mem _ hmem

/-- C10 witness: the local site 1 (status online) is rejected with no
request issued, and a fan-out over the list [1] records the failure entry. -/
theorem C10_local_site_rejected_without_network_witness :
    callSiteAPI oneLocalOnlineDB netEmpty 1 "/system/identity" "GET" [] =
      (Except.error "Can only call API on remote sites", oneLocalOnlineDB, []) ∧
    (⟨1, false, some "Can only call API on remote sites"⟩ : FanEntry) ∈
      (createUserAcrossMultipleSites oneLocalOnlineDB netEmpty "alice" "pw" [1] []).1 :=
  have h := C10_local_site_rejected_without_network oneLocalOnlineDB netEmpty 1
    (mkSite 1 "local" "192.168.1.1" "online") rfl (by decide)
    "/system/identity" "GET" [] "alice" "pw" [] 5
  ⟨h.1, h.2.2.2.2.2.2 [1] (by decide)⟩

end MultiSiteManager

namespace MikrotikManager

theorem getQueues_lastUpdate (c : MtCache) (net : MtNet) (now : Nat) :
    ((getQueues c net now).2).lastUpdate = c.lastUpdate := by
  unfold getQueues fetchQueues
  cases c.queues with
  | some cached =>
      dsimp only
      split
      · rfl
      · cases net now ⟨"/queue/simple", "GET", []⟩ with
        | ok data => rfl
        | error e => rfl
  | none =>
      dsimp only
      cases net now ⟨"/queue/simple", "GET", []⟩ with
      | ok data => rfl
      | error e => rfl

theorem getAccessPoints_lastUpdate (c : MtCache) (net : MtNet) (now : Nat) :
    ((getAccessPoints c net now).2).lastUpdate = c.lastUpdate := by
  unfold getAccessPoints fetchAccessPoints
  cases c.aps with
  | some cached =>
      dsimp only
      split
      · rfl
      · cases net now ⟨"/interface/wireless", "GET", []⟩ with
        | ok data => rfl
        | error e => rfl
  | none =>
      dsimp only
      cases net now ⟨"/interface/wireless", "GET", []⟩ with
      | ok data => rfl
      | error e => rfl

theorem getHotspotUsers_cached (c : MtCache) (net : MtNet) (now : Nat)
    (cached : List RObj) (hc : c.users = some cached)
    (hfresh : now - c.lastUpdate < cacheTTL) :
    getHotspotUsers c net now = (cached, c) := by
  unfold getHotspotUsers
  rw [hc]
  dsimp only
  rw [if_pos hfresh]

theorem getQueues_cached (c : MtCache) (net : MtNet) (now : Nat)
    (cached : List RObj) (hc : c.queues = some cached)
    (hfresh : now - c.lastUpdate < cacheTTL) :
    getQueues c net now = (cached, c) := by
  unfold getQueues
  rw [hc]
  dsimp only
  rw [if_pos hfresh]

theorem createHotspotUser_invalidates (c : MtCache) (net : MtNet) (now : Nat)
    (u p : String) (o : List (String × String)) (r : List RObj) (c' : MtCache)
    (heq : createHotspotUser c net now u p o = (Except.ok r, c')) :
    c'.users = none := by
  unfold createHotspotUser at heq
  dsimp only at heq
  split at heq
  · have h2 := congrArg (fun t => t.2) heq
    dsimp only at h2
    rw [← h2]
  · have h1 := congrArg (fun t => t.1) heq
    simp at h1

theorem updateHotspotUser_invalidates (c : MtCache) (net : MtNet) (now : Nat)
    (u : String) (upd : List (String × String)) (r : List RObj) (c' : MtCache)
    (heq : updateHotspotUser c net now u upd = (Except.ok r, c')) :
    c'.users = none := by
  unfold updateHotspotUser at heq
  rcases hg : getHotspotUsers c net now with ⟨users, c1⟩
  rw [hg] at heq
  dsimp only at heq
  cases hf : users.find? (fun x => x.name == u) with
  | none =>
      rw [hf] at heq
      dsimp only at heq
      have h1 := congrArg (fun t => t.1) heq
      simp at h1
  | some user =>
      rw [hf] at heq
      dsimp only at heq
      split at heq
      · have h2 := congrArg (fun t => t.2) heq
        dsimp only at h2
        rw [← h2]
      · have h1 := congrArg (fun t => t.1) heq
        simp at h1

theorem deleteHotspotUser_invalidates (c : MtCache) (net : MtNet) (now : Nat)
    (u : String) (c' : MtCache)
    (heq : deleteHotspotUser c net now u = (Except.ok (), c')) :
    c'.users = none := by
  unfold deleteHotspotUser at heq
  rcases hg : getHotspotUsers c net now with ⟨users, c1⟩
  rw [hg] at heq
  dsimp only at heq
  cases hf : users.find? (fun x => x.name == u) with
  | none =>
      rw [hf] at heq
      dsimp only at heq
      have h1 := congrArg (fun t => t.1) heq
      simp at h1
  | some user =>
      rw [hf] at heq
      dsimp only at heq
      split at heq
      · have h2 := congrArg (fun t => t.2) heq
        dsimp only at h2
        rw [← h2]
      · have h1 := congrArg (fun t => t.1) heq
        simp at h1

theorem createQueue_invalidates (c : MtCache) (net : MtNet) (now : Nat)
    (u : String) (o : List (String × String)) (r : List RObj) (c' : MtCache)
    (heq : createQueue c net now u o = (Except.ok r, c')) :
    c'.queues = none := by
  unfold createQueue at heq
  dsimp only at heq
  split at heq
  · have h2 := congrArg (fun t => t.2) heq
    dsimp only at h2
    rw [← h2]
  · have h1 := congrArg (fun t => t.1) heq
    simp at h1

theorem updateQueueBandwidth_invalidates (c : MtCache) (net : MtNet)
    (now : Nat) (u : String) (bwu : List (String × String)) (c' : MtCache)
    (heq : updateQueueBandwidth c net now u bwu = (Except.ok (), c')) :
    c'.queues = none := by
  unfold updateQueueBandwidth at heq
  rcases hg : getQueues c net now with ⟨queues, c1⟩
  rw [hg] at heq
  dsimp only at heq
  cases hf : queues.find? (fun x => x.name == "queue-" ++ u) with
  | none =>
      rw [hf] at heq
      dsimp only at heq
      have h1 := congrArg (fun t => t.1) heq
      simp at h1
  | some queue =>
      rw [hf] at heq
      dsimp only at heq
      split at heq
      · have h2 := congrArg (fun t => t.2) heq
        dsimp only at h2
        rw [← h2]
      · have h1 := congrArg (fun t => t.1) heq
        simp at h1

theorem deleteQueue_invalidates (c : MtCache) (net : MtNet) (now : Nat)
    (u : String) (c' : MtCache)
    (heq : deleteQueue c net now u = (Except.ok (), c')) :
    c'.queues = none := by
  unfold deleteQueue at heq
  rcases hg : getQueues c net now with ⟨queues, c1⟩
  rw [hg] at heq
  dsimp only at heq
  cases hf : queues.find? (fun x => x.name == "queue-" ++ u) with
  | none =>
      rw [hf] at heq
      dsimp only at heq
      have h1 := congrArg (fun t => t.1) heq
      simp at h1
  | some queue =>
      rw [hf] at heq
      dsimp only at heq
      split at heq
      · have h2 := congrArg (fun t => t.2) heq
        dsimp only at h2
        rw [← h2]
      · have h1 := congrArg (fun t => t.1) heq
        simp at h1

/-- C8 (amended): all three list calls serve their cached entry exactly
while the entry is set and now minus the single shared lastUpdate timestamp
is under the 5-minute TTL — but only getHotspotUsers refreshes that
timestamp: getQueues and getAccessPoints never touch it, so the TTL of the
queues and AP entries is measured from the last users fetch, not from the
entry itself. Every successful mutating call invalidates the cache entry of
its own resource, forcing the next list call to re-fetch. -/
theorem C8_cache_ttl_and_invalidation :
    (∀ (c : MtCache) (net : MtNet) (now : Nat) (cached : List RObj),
      c.users = some cached → now - c.lastUpdate < cacheTTL →
      getHotspotUsers c net now = (cached, c)) ∧
    (∀ (c : MtCache) (net : MtNet) (now : Nat) (cached : List RObj),
      c.queues = some cached → now - c.lastUpdate < cacheTTL →
      getQueues c net now = (cached, c)) ∧
    (∀ (c : MtCache) (net : MtNet) (now : Nat),
      ((getQueues c net now).2).lastUpdate = c.lastUpdate) ∧
    (∀ (c : MtCache) (net : MtNet) (now : Nat),
      ((getAccessPoints c net now).2).lastUpdate = c.lastUpdate) ∧
    (∀ (c : MtCache) (net : MtNet) (now : Nat) (u p : String)
      (o : List (String × String)) (r : List RObj) (c' : MtCache),
      createHotspotUser c net now u p o = (Except.ok r, c') → c'.users = none) ∧
    (∀ (c : MtCache) (net : MtNet) (now : Nat) (u : String)
      (upd : List (String × String)) (r : List RObj) (c' : MtCache),
      updateHotspotUser c net now u upd = (Except.ok r, c') → c'.users = none) ∧
    (∀ (c : MtCache) (net : MtNet) (now : Nat) (u : String) (c' : MtCache),
      deleteHotspotUser c net now u = (Except.ok (), c') → c'.users = none) ∧
    (∀ (c : MtCache) (net : MtNet) (now : Nat) (u : String)
      (o : List (String × String)) (r : List RObj) (c' : MtCache),
      createQueue c net now u o = (Except.ok r, c') → c'.queues = none) ∧
    (∀ (c : MtCache) (net : MtNet) (now : Nat) (u : String)
      (bwu : List (String × String)) (c' : MtCache),
      updateQueueBandwidth c net now u bwu = (Except.ok (), c') → c'.queues = none) ∧
    (∀ (c : MtCache) (net : MtNet) (now : Nat) (u : String) (c' : MtCache),
      deleteQueue c net now u = (Except.ok (), c') → c'.queues = none) :=
  ⟨getHotspotUsers_cached, getQueues_cached,
   getQueues_lastUpdate, getAccessPoints_lastUpdate,
   createHotspotUser_invalidates, updateHotspotUser_invalidates,
   deleteHotspotUser_invalidates, createQueue_invalidates,
   updateQueueBandwidth_invalidates, deleteQueue_invalidates⟩

/-- C8 witness: a users entry cached at 100 is served fresh at 200, and a
successful createHotspotUser leaves the users slot invalidated. -/
theorem C8_cache_ttl_and_invalidation_witness :
    getHotspotUsers ⟨some [q1], none, none, 100⟩ mtNetShift 200 =
      ([q1], ⟨some [q1], none, none, 100⟩) ∧
    ((createHotspotUser mtCache0 mtNetShift 0 "alice" "pw" []).2).users = none :=
  ⟨C8_cache_ttl_and_invalidation.1 ⟨some [q1], none, none, 100⟩ mtNetShift 200
      [q1] rfl (by decide),
   C8_cache_ttl_and_invalidation.2.2.2.2.1 mtCache0 mtNetShift 0 "alice" "pw"
      [] _ _ rfl⟩

/-- C8 counterexample: the queues entry is refreshed at time 0 with value
q1 while the shared lastUpdate stays 0; getHotspotUsers at time 600000
refreshes the shared timestamp; getQueues at time 700000 — more than the
5-minute TTL after the queues entry was itself last refreshed — still
serves the cached q1 although the controller is already reporting q2. The
TTL is therefore not measured from the entry it gates. -/
theorem C8_counterexample :
    (getQueues mtCache0 mtNetShift 0).1 = [q1] ∧
    mtCacheQ.queues = some [q1] ∧
    mtCacheQ.lastUpdate = 0 ∧
    mtCacheQU.lastUpdate = 600000 ∧
    (getQueues mtCacheQU mtNetShift 700000).1 = [q1] ∧
    mtNetShift 700000 ⟨"/queue/simple", "GET", []⟩ = Except.ok [q2] ∧
    ¬ (700000 - 0 < cacheTTL) := by
  refine ⟨?_, ?_, ?_, ?_, ?_, ?_, ?_⟩ <;> decide

end MikrotikManager

end HotspotPortal
